import Mathlib

/-!
Shallow embedding of the tool-definition derivation engine of
`arcade/core/catalog.py`, together with theorems checking the
claims the specification makes about it.

Python type expressions, parameter defaults and metadata are embedded as
inductive types; functions that can raise `ToolDefinitionError` return
`Except ToolDefinitionError _`.  The single Python exception class is split
into one constructor per distinct message family, so that theorems can talk
about which error is raised.
-/

namespace Arcade

/-- The closed wire-type vocabulary (`WireType` in `catalog.py`). -/
inductive WireType where
  | string
  | integer
  | float
  | boolean
  | json
deriving DecidableEq, Repr

/-- Embedding of the Python type expressions the engine inspects.
`str`, `bool`, `int`, `float`, `dict`, `list` and `baseModel` are the exact
class objects used as keys of `type_mapping`; `customClass` is any other
class object (with a flag recording whether it subclasses `BaseModel`);
`generic` is a parameterized generic such as `list[str]` (it carries
`__origin__`); `literalStr` is `Literal["a", "b", ...]`; `union` is a
`Union[...]` type (`Optional` included); `noneType` is `type(None)`. -/
inductive PyType where
  | str
  | bool
  | int
  | float
  | dict
  | list
  | baseModel
  | noneType
  | customClass (name : String) (isBaseModelSubclass : Bool)
  | generic (origin : PyType) (args : List PyType)
  | literalStr (values : List String)
  | union (args : List PyType)

/-- Metadata items attached to an `Annotated[...]` type: free-form strings,
the `Inferrable` marker, or anything else. -/
inductive Metadata where
  | str (s : String)
  | inferrable (value : Bool)
  | other
deriving DecidableEq, Repr

/-- A (possibly `Annotated[...]`-wrapped) type annotation. -/
inductive Annot where
  | plain (t : PyType)
  | annotated (t : PyType) (metadata : List Metadata)

/-- Embedding of Python runtime values, as far as defaults are concerned.
`vNone` is `None`; `vOther` stands for any other opaque object. -/
inductive PyValue where
  | vNone
  | vStr (s : String)
  | vInt (n : Int)
  | vBool (b : Bool)
  | vOther (tag : String)
deriving DecidableEq, Repr

/-- A pydantic `default_factory`: either a callable (embedded by the value it
eagerly returns when invoked) or a non-callable object. -/
inductive DefaultFactory where
  | callable (result : PyValue)
  | notCallable
deriving DecidableEq, Repr

/-- The parts of a pydantic `FieldInfo` the engine reads.  `default = none`
embeds `PydanticUndefined`. -/
structure FieldInfo where
  default : Option PyValue
  default_factory : Option DefaultFactory
  description : Option String
deriving DecidableEq, Repr

/-- A parameter default: absent (`inspect.Parameter.empty`), a plain value,
or a pydantic `Field(...)` object. -/
inductive ParamDefault where
  | empty
  | value (v : PyValue)
  | fieldInfo (fi : FieldInfo)
deriving DecidableEq, Repr

/-- One parameter of a callable signature: declared name, type (or none for
`inspect.Parameter.empty`), and default. -/
structure Parameter where
  name : String
  anno : Option Annot
  default : ParamDefault

/-- The reflectable facts about a callable that the engine reads: declared
name, the optional explicit display-name override carried on the callable,
the attached tool description, the declared parameters in order, the return
type (or none), whether its body detectably produces a value, and the opaque
authorization-requirement marker. -/
structure PyFunc where
  name : String
  tool_name : Option String
  tool_description : Option String
  params : List Parameter
  return_anno : Option Annot
  returns_value : Bool
  requires_auth : Option String

/-- Embeds `ToolDefinitionError`, split by message family. -/
inductive ToolDefinitionError where
  | missingAnno (param : String)
  | missingDescription (name : String)
  | tooManyStrAnnos (param : String) (count : Nat)
  | unsupportedType (t : PyType)
  | invalidDefaultFactory (param : String)
  | missingReturnAnno (tool : String)

/-- Modelled from the spec: the wire data structures live in
`arcade/core/tool.py`, which is not under `src/`; §3 of the spec gives their
fields.  `ValueSchema`: a wire type plus an optional ordered enumeration. -/
structure ValueSchema where
  val_type : WireType
  enum : Option (List String) := none
deriving DecidableEq, Repr

/-- Modelled from the spec (§3): one input parameter of a ToolDefinition. -/
structure InputParameter where
  name : String
  description : Option String
  required : Bool
  inferrable : Bool
  value_schema : ValueSchema
deriving DecidableEq, Repr

/-- Modelled from the spec (§3): the ordered input-parameter list. -/
structure ToolInputs where
  parameters : List InputParameter
deriving DecidableEq, Repr

/-- Modelled from the spec (§3): the output description of a tool. -/
structure ToolOutput where
  description : Option String
  available_modes : List String
  value_schema : Option ValueSchema
deriving DecidableEq, Repr

/-- Modelled from the spec (§3): requirements carry only an opaque
authorization marker. -/
structure ToolRequirements where
  authorization : Option String
deriving DecidableEq, Repr

/-- Modelled from the spec (§3): the final tool definition. -/
structure ToolDefinition where
  name : String
  description : String
  version : String
  inputs : ToolInputs
  output : ToolOutput
  requirements : ToolRequirements
deriving DecidableEq, Repr

/-- Embeds `ParamInfo` of `catalog.py`: intermediate per-parameter record. -/
structure ParamInfo where
  name : String
  default : PyValue
  original_type : PyType
  field_type : PyType
  description : Option String := none
  is_optional : Bool := true

/-- Embeds `ToolParamInfo` of `catalog.py`: `ParamInfo` plus computed values. -/
structure ToolParamInfo where
  name : String
  default : PyValue
  original_type : PyType
  field_type : PyType
  wire_type : WireType
  description : Option String := none
  is_optional : Bool := true
  is_inferrable : Bool := true

/-- Embeds `ToolParamInfo.from_param_info`. -/
def ToolParamInfo.from_param_info (info : ParamInfo) (wire_type : WireType)
    (is_inferrable : Bool) : ToolParamInfo :=
  { name := info.name
    default := info.default
    original_type := info.original_type
    field_type := info.field_type
    description := info.description
    is_optional := info.is_optional
    wire_type := wire_type
    is_inferrable := is_inferrable }

/-- Is this type expression `type(None)`? -/
def PyType.isNoneType : PyType → Bool
  | .noneType => true
  | _ => false

/-- Embeds `next(arg for arg in get_args(t) if arg is not type(None))`. -/
def firstNonNone : List PyType → Option PyType
  | [] => none
  | t :: ts => if t.isNoneType then firstNonNone ts else some t

/-- The optional-unwrapping step used in three places of `catalog.py`:
`if get_origin(field_type) is Union and type(None) in get_args(field_type)`,
take the first non-`None` member and record optionality.  (The Python
`typing` module normalizes every `Union` containing `None` to have at least one other
member, so the `none` fallback of `firstNonNone` is unreachable.) -/
def unwrapOptional (t : PyType) : PyType × Bool :=
  match t with
  | .union args =>
    if args.any PyType.isNoneType then
      match firstNonNone args with
      | some u => (u, true)
      | none => (.noneType, true)
    else (t, false)
  | _ => (t, false)

/-- The `type_mapping` dict of `get_wire_type`: exact-key lookup. -/
def type_mapping : PyType → Option WireType
  | .str => some .string
  | .bool => some .boolean
  | .int => some .integer
  | .float => some .float
  | .dict => some .json
  | .list => some .json
  | .baseModel => some .json
  | _ => none

/-- Embeds `hasattr(_type, "__origin__")`: true for parameterized generics,
`Literal[...]` and `Union[...]`. -/
def PyType.hasOrigin : PyType → Bool
  | .generic _ _ => true
  | .literalStr _ => true
  | .union _ => true
  | _ => false

/-- Embeds `_type.__origin__ in [list, dict]`. -/
def PyType.originIsListOrDict : PyType → Bool
  | .generic .list _ => true
  | .generic .dict _ => true
  | _ => false

/-- Embeds `issubclass(_type, BaseModel)` for the class-like embeddings. -/
def PyType.isBaseModelSub : PyType → Bool
  | .baseModel => true
  | .customClass _ b => b
  | _ => false

/-- Embeds `get_wire_type` of `catalog.py`: exact table lookup, then the
`__origin__` branch, then the `BaseModel`-subclass branch, else raise. -/
def get_wire_type (t : PyType) : Except ToolDefinitionError WireType :=
  match type_mapping t with
  | some w => .ok w
  | none =>
    if t.hasOrigin then
      if t.originIsListOrDict then .ok .json
      else .error (.unsupportedType t)
    else if t.isBaseModelSub then .ok .json
    else .error (.unsupportedType t)

/-- Modelled from the spec: `arcade.core.utils.is_string_literal` is not
under `src/`.  Per §4.1 of the spec it detects "a type expressed as a closed
set of string literals". -/
def is_string_literal (t : PyType) : Bool :=
  match t with
  | .literalStr _ => true
  | _ => false

/-- Embeds `get_args` on a `Literal[...]` type, stringified
(`[str(e) for e in get_args(...)]` is the identity on string literals). -/
def literalArgs : PyType → List String
  | .literalStr vs => vs
  | _ => []

/-- The underlying type of an annotation:
`annotation.__args__[0] if get_origin(annotation) is Annotated else annotation`. -/
def Annot.underlying : Annot → PyType
  | .plain t => t
  | .annotated t _ => t

/-- Embeds `getattr(annotation, "__metadata__", [])`. -/
def Annot.metadata : Annot → List Metadata
  | .plain _ => []
  | .annotated _ ms => ms

/-- The free-form string metadata items of an annotation
(`[m for m in metadata if isinstance(m, str)]`). -/
def strAnnos (anno : Annot) : List String :=
  anno.metadata.filterMap fun m =>
    match m with
    | .str s => some s
    | _ => none

/-- Modelled from the spec: `first_or_none(Inferrable, get_args(annotation))`
(`arcade.core.utils.first_or_none` and `arcade.sdk.annotations.Inferrable`
are not under `src/`): the first inferrability marker among the metadata
items, if any (§4.2: "Read an attached inferrability marker, if present"). -/
def firstInferrableMarker : List Metadata → Option Bool
  | [] => none
  | .inferrable b :: _ => some b
  | _ :: ms => firstInferrableMarker ms

/-- Embeds `extract_regular_param_info` of `catalog.py`.  The annotation is passed
explicitly (the caller has already established it is not empty). -/
def extract_regular_param_info (param : Parameter) (anno : Annot) : ParamInfo :=
  let original_type := anno.underlying
  let ft := unwrapOptional original_type
  { name := param.name
    default :=
      match param.default with
      | .value v => v
      | _ => .vNone
    is_optional := ft.2
    original_type := original_type
    field_type := ft.1 }

/-- Embeds `extract_pydantic_param_info` of `catalog.py`: resolve the default
(eagerly invoking a callable `default_factory`, failing on a non-callable
one), read the field description, unwrap the annotation. -/
def extract_pydantic_param_info (param : Parameter) (anno : Annot)
    (fi : FieldInfo) : Except ToolDefinitionError ParamInfo :=
  let dv0 : PyValue :=
    match fi.default with
    | none => .vNone
    | some v => v
  let mk : PyValue → ParamInfo := fun dv =>
    let original_type := anno.underlying
    let ft := unwrapOptional original_type
    { name := param.name
      description := fi.description
      default := dv
      is_optional := ft.2
      original_type := original_type
      field_type := ft.1 }
  match fi.default_factory with
  | none => .ok (mk dv0)
  | some (.callable r) => .ok (mk r)
  | some .notCallable => .error (.invalidDefaultFactory param.name)

/-- The `isinstance(param.default, FieldInfo)` branch of
`extract_field_info`. -/
def param_info_of (param : Parameter) (anno : Annot) :
    Except ToolDefinitionError ParamInfo :=
  match param.default with
  | .fieldInfo fi => extract_pydantic_param_info param anno fi
  | _ => .ok (extract_regular_param_info param anno)

/-- The string-metadata block of `extract_field_info`: 0/1/2 items handled,
3 or more raise. -/
def apply_str_annos (param : Parameter) (sa : List String) (info : ParamInfo) :
    Except ToolDefinitionError ParamInfo :=
  match sa with
  | [] => .ok info
  | [d] => .ok { info with description := some d }
  | [n, d] => .ok { info with name := n, description := some d }
  | _ => .error (.tooManyStrAnnos param.name sa.length)

/-- The wire-type step of `extract_field_info`: the literal-string-set
special case forces `str`, otherwise the field type resolves directly. -/
def wire_of (info : ParamInfo) : Except ToolDefinitionError WireType :=
  if is_string_literal info.field_type then get_wire_type .str
  else get_wire_type info.field_type

/-- Embeds `extract_field_info` of `catalog.py`.  (The trailing
`if wire_type is None` check is unreachable, since `get_wire_type` raises
rather than returning `None`; it has no counterpart here.) -/
def extract_field_info (param : Parameter) :
    Except ToolDefinitionError ToolParamInfo :=
  match param.anno with
  | none => .error (.missingAnno param.name)
  | some anno =>
    match param_info_of param anno with
    | .error e => .error e
    | .ok info0 =>
      match apply_str_annos param (strAnnos anno) info0 with
      | .error e => .error e
      | .ok info =>
        let is_inferrable := (firstInferrableMarker anno.metadata).getD true
        match wire_of info with
        | .error e => .error e
        | .ok wire_type =>
          match info.description with
          | none => .error (.missingDescription info.name)
          | some _ => .ok (.from_param_info info wire_type is_inferrable)

/-- The per-parameter body of `create_input_definition`: enum special case,
requiredness from optionality and the resolved default, schema assembly. -/
def make_input_parameter (tfi : ToolParamInfo) : InputParameter :=
  let is_enum := is_string_literal tfi.field_type
  let enum_values : List String :=
    if is_enum then literalArgs tfi.field_type else []
  let has_default_value := !(tfi.default == PyValue.vNone)
  let is_required := !tfi.is_optional && !has_default_value
  { name := tfi.name
    description := tfi.description
    required := is_required
    inferrable := tfi.is_inferrable
    value_schema :=
      { val_type := tfi.wire_type
        enum := if is_enum then some enum_values else none } }

/-- The parameter loop of `create_input_definition`, in declaration order;
the error of the first failing parameter propagates. -/
def inputParamsLoop : List Parameter →
    Except ToolDefinitionError (List InputParameter)
  | [] => .ok []
  | p :: ps =>
    match extract_field_info p with
    | .error e => .error e
    | .ok tfi =>
      match inputParamsLoop ps with
      | .error e => .error e
      | .ok rest => .ok (make_input_parameter tfi :: rest)

/-- Embeds `create_input_definition` of `catalog.py`. -/
def create_input_definition (func : PyFunc) :
    Except ToolDefinitionError ToolInputs :=
  (inputParamsLoop func.params).map ToolInputs.mk

/-- A metadata item read as a description string.  (Non-string metadata
items are not modelled as descriptions; the source would pass the raw object
through to pydantic.) -/
def metaDescription : Metadata → Option String
  | .str s => some s
  | _ => none

/-- The description part of `create_output_definition`: it starts as
"No description provided." and, when the return type carries
`__metadata__`, is replaced by the first metadata item (`None` when the
metadata tuple is empty). -/
def return_description : Annot → Option String
  | .plain _ => some "No description provided."
  | .annotated _ [] => none
  | .annotated _ (m :: _) => metaDescription m

/-- Embeds `create_output_definition` of `catalog.py`: metadata unwrapping
(`return_type = return_type.__origin__`, i.e. `Annot.underlying`), optional
unwrapping, wire-type resolution, and mode assembly. -/
def create_output_definition (func : PyFunc) :
    Except ToolDefinitionError ToolOutput :=
  match func.return_anno with
  | none =>
    .ok { value_schema := none
          description := some "No description provided."
          available_modes := ["null"] }
  | some ra =>
    match get_wire_type (unwrapOptional ra.underlying).1 with
    | .error e => .error e
    | .ok wire_type =>
      .ok { description := return_description ra
            available_modes :=
              if (unwrapOptional ra.underlying).2 then
                ["value", "error", "null"]
              else ["value", "error"]
            value_schema := some { val_type := wire_type } }

/-- Split a character list on underscores. -/
def splitOnUnderscore : List Char → List (List Char)
  | [] => [[]]
  | c :: cs =>
    let r := splitOnUnderscore cs
    if c = '_' then [] :: r
    else
      match r with
      | [] => [[c]]
      | w :: ws => (c :: w) :: ws

/-- Capitalize the first character of a word. -/
def capitalizeWord : List Char → List Char
  | [] => []
  | c :: cs => c.toUpper :: cs

/-- Modelled from the spec: `arcade.core.utils.snake_to_pascal_case` is not
under `src/`; §3/§4.4 of the spec specify a snake→Pascal case conversion of
the name: split on underscores, capitalize each word, concatenate. -/
def snake_to_pascal_case (s : String) : String :=
  String.mk (((splitOnUnderscore s.data).map capitalizeWord).flatten)

/-- Modelled from the spec: `arcade.core.utils.does_function_return_value`
is not under `src/`; per §4.4 it detects whether the body of the callable
is detectable as producing a value, embedded here as a recorded fact. -/
def does_function_return_value (func : PyFunc) : Bool :=
  func.returns_value

/-- Embeds `tool.__annotations__.get("return") is None`: true when there is no
return type at all, and also when the return type is literally `None`. -/
def returnAnnoIsNone (func : PyFunc) : Bool :=
  match func.return_anno with
  | none => true
  | some (.plain .noneType) => true
  | some _ => false

/-- Embeds `ToolCatalog.create_tool_definition` of `catalog.py`: description check,
return-annotation check, then input and output derivation, then assembly. -/
def create_tool_definition (tool : PyFunc) (version : String) :
    Except ToolDefinitionError ToolDefinition :=
  let tool_name := tool.tool_name.getD tool.name
  match tool.tool_description with
  | none => .error (.missingDescription tool_name)
  | some d =>
    if d = "" then .error (.missingDescription tool_name)
    else if does_function_return_value tool && returnAnnoIsNone tool then
      .error (.missingReturnAnno tool_name)
    else
      match create_input_definition tool with
      | .error e => .error e
      | .ok inputs =>
        match create_output_definition tool with
        | .error e => .error e
        | .ok output =>
          .ok { name := snake_to_pascal_case tool_name
                description := d
                version := version
                inputs := inputs
                output := output
                requirements := { authorization := tool.requires_auth } }

/-- One field of the runtime input-coercion model built by
`create_func_models`: the dict key is the declared parameter name, the field
carries the resolved type, default and description. -/
structure ModelField where
  name : String
  field_type : PyType
  default : PyValue
  description : Option String

/-- The loop body of `create_func_models` for one parameter. -/
def model_field_of (param : Parameter) : Except ToolDefinitionError ModelField :=
  match extract_field_info param with
  | .error e => .error e
  | .ok tfi =>
    .ok { name := param.name
          field_type := tfi.field_type
          default := tfi.default
          description := tfi.description }

/-- The input half of `create_func_models`: the second signature pass. -/
def create_func_models_input (func : PyFunc) :
    Except ToolDefinitionError (List ModelField) :=
  func.params.mapM model_field_of

/-- The `result` field of the runtime output-coercion model, when present. -/
structure OutputModelField where
  field_type : Annot
  description : String

/-- Embeds `hasattr(return_annotation, "__origin__")`: an `Annotated[...]` wrapper
always has one; a plain type has one iff it is a generic construct. -/
def Annot.hasOrigin : Annot → Bool
  | .annotated _ _ => true
  | .plain t => t.hasOrigin

/-- Embeds `determine_output_model` of `catalog.py`, reduced to the `result` field
it creates (no `result` field when the return annotation is absent). -/
def determine_output_model (func : PyFunc) : Option OutputModelField :=
  match func.return_anno with
  | none => none
  | some ra =>
    if ra.hasOrigin then
      match ra with
      | .annotated t ms =>
        let description :=
          match ms with
          | [] => ""
          | m :: _ => (metaDescription m).getD ""
        if description ≠ "" then
          some { field_type := .plain t, description := description }
        else
          some { field_type := ra, description := "No description provided." }
      | .plain _ =>
        some { field_type := ra, description := "No description provided." }
    else
      some { field_type := ra, description := "No description provided." }

end Arcade

namespace Arcade

/-! ### Structural lemmas about the extraction pipeline -/

theorem param_info_of_ok (p : Parameter) (a : Annot) (info : ParamInfo)
    (h : param_info_of p a = .ok info) :
    info.name = p.name ∧ info.original_type = a.underlying ∧
    info.field_type = (unwrapOptional a.underlying).1 ∧
    info.is_optional = (unwrapOptional a.underlying).2 := by
  unfold param_info_of extract_pydantic_param_info at h
  repeat' split at h
  all_goals first
    | exact Except.noConfusion h
    | (simp only [Except.ok.injEq] at h
       subst h
       simp [extract_regular_param_info])

theorem param_info_of_regular_default (p : Parameter) (a : Annot)
    (info : ParamInfo) (hreg : ∀ fi, p.default ≠ .fieldInfo fi)
    (h : param_info_of p a = .ok info) :
    info.default = (match p.default with | .value v => v | _ => .vNone) ∧
    info.description = none := by
  unfold param_info_of at h
  split at h
  · rename_i fi hfi
    exact absurd hfi (hreg fi)
  · simp only [Except.ok.injEq] at h
    subst h
    simp [extract_regular_param_info]

theorem apply_str_annos_ok (p : Parameter) (sa : List String)
    (info0 info : ParamInfo) (h : apply_str_annos p sa info0 = .ok info) :
    info.default = info0.default ∧ info.field_type = info0.field_type ∧
    info.is_optional = info0.is_optional ∧
    info.original_type = info0.original_type := by
  unfold apply_str_annos at h
  split at h
  all_goals first
    | exact Except.noConfusion h
    | (simp only [Except.ok.injEq] at h
       subst h
       simp)

theorem extract_field_info_ok (p : Parameter) (a : Annot)
    (hpa : p.anno = some a) (tfi : ToolParamInfo)
    (h : extract_field_info p = .ok tfi) :
    ∃ info0 info w,
      param_info_of p a = .ok info0 ∧
      apply_str_annos p (strAnnos a) info0 = .ok info ∧
      wire_of info = .ok w ∧
      tfi = .from_param_info info w
        ((firstInferrableMarker a.metadata).getD true) ∧
      tfi.description.isSome := by
  unfold extract_field_info at h
  rw [hpa] at h
  simp only at h
  split at h
  · exact Except.noConfusion h
  · rename_i info0 hinfo0
    split at h
    · exact Except.noConfusion h
    · rename_i info hinfo
      split at h
      · exact Except.noConfusion h
      · rename_i w hw
        split at h
        · exact Except.noConfusion h
        · rename_i d hd
          simp only [Except.ok.injEq] at h
          subst h
          exact ⟨info0, info, w, hinfo0, hinfo, hw, rfl,
            by simp [ToolParamInfo.from_param_info, hd]⟩

theorem from_param_info_fields (info : ParamInfo) (w : WireType) (b : Bool) :
    (ToolParamInfo.from_param_info info w b).name = info.name ∧
    (ToolParamInfo.from_param_info info w b).default = info.default ∧
    (ToolParamInfo.from_param_info info w b).field_type = info.field_type ∧
    (ToolParamInfo.from_param_info info w b).is_optional = info.is_optional ∧
    (ToolParamInfo.from_param_info info w b).description = info.description ∧
    (ToolParamInfo.from_param_info info w b).wire_type = w := by
  simp [ToolParamInfo.from_param_info]


/-! ### Claim theorems -/

/-- C8: `get_wire_type` maps the exact primitives `str`, `bool`, `int` and
`float` to their wire kinds, maps the unparameterized `dict`, `list` and
structured/record (`BaseModel` and its subclasses) types to `json`, maps
every parameterized generic whose origin is `list` or `dict` to `json`
regardless of its arguments, and fails with an unsupported-type error on
every other embedded type. -/
theorem get_wire_type_mapping_policy :
    (∀ o args, o ≠ PyType.list → o ≠ PyType.dict →
      get_wire_type (.generic o args) =
        .error (.unsupportedType (.generic o args))) ∧
    get_wire_type .str = .ok .string ∧
    get_wire_type .bool = .ok .boolean ∧
    get_wire_type .int = .ok .integer ∧
    get_wire_type .float = .ok .float ∧
    get_wire_type .dict = .ok .json ∧
    get_wire_type .list = .ok .json ∧
    get_wire_type .baseModel = .ok .json ∧
    (∀ n, get_wire_type (.customClass n true) = .ok .json) ∧
    (∀ args, get_wire_type (.generic .list args) = .ok .json) ∧
    (∀ args, get_wire_type (.generic .dict args) = .ok .json) ∧
    (∀ n, get_wire_type (.customClass n false) =
      .error (.unsupportedType (.customClass n false))) ∧
    (∀ vs, get_wire_type (.literalStr vs) =
      .error (.unsupportedType (.literalStr vs))) ∧
    (∀ args, get_wire_type (.union args) =
      .error (.unsupportedType (.union args))) ∧
    get_wire_type .noneType = .error (.unsupportedType .noneType) := by
  refine ⟨?_, rfl, rfl, rfl, rfl, rfl, rfl, rfl, fun n => rfl, fun args => rfl,
    fun args => rfl, fun n => rfl, fun vs => rfl, fun args => rfl, rfl⟩
  intro o args h1 h2
  cases o <;> first | rfl | exact absurd rfl h1 | exact absurd rfl h2

/-- Witness for C8: the policy applied to a parameterized generic with a
non-container origin. -/
theorem get_wire_type_mapping_policy_witness :
    get_wire_type (.generic .str [.int]) =
      .error (.unsupportedType (.generic .str [.int])) :=
  get_wire_type_mapping_policy.1 .str [.int]
    (fun h => PyType.noConfusion h) (fun h => PyType.noConfusion h)

/-- C10: when the return type, after unwrapping attached metadata and
optional wrapping, is a closed set of string literals, output derivation
fails with an unsupported-type error: the literal-string-set special case
applies only to input parameters, never to the return type. -/
theorem return_literal_string_set_unsupported (f : PyFunc) (ra : Annot)
    (vs : List String) (h : f.return_anno = some ra)
    (hl : (unwrapOptional ra.underlying).1 = .literalStr vs) :
    create_output_definition f = .error (.unsupportedType (.literalStr vs)) := by
  have hw : get_wire_type (PyType.literalStr vs) =
      .error (.unsupportedType (.literalStr vs)) := rfl
  simp [create_output_definition, h, hl, hw]

/-- A concrete callable whose return type is `Optional[Literal["a", "b"]]`. -/
def literalReturnFunc : PyFunc :=
  { name := "pick", tool_name := none, tool_description := some "d",
    params := [],
    return_anno := some (.plain (.union [.literalStr ["a", "b"], .noneType])),
    returns_value := true, requires_auth := none }

/-- Witness for C10: output derivation on `literalReturnFunc` fails with the
unsupported-type error. -/
theorem return_literal_string_set_unsupported_witness :
    create_output_definition literalReturnFunc =
      .error (.unsupportedType (.literalStr ["a", "b"])) :=
  return_literal_string_set_unsupported literalReturnFunc
    (.plain (.union [.literalStr ["a", "b"], .noneType])) ["a", "b"] rfl rfl

/-- C5 (amended): the derived name is the snake→Pascal conversion of
the explicit override when one is attached, and of the declared name
otherwise; the override is not used as provided but converted too. -/
theorem tool_name_pascal_of_override_or_declared (f : PyFunc) (v : String)
    (td : ToolDefinition) (h : create_tool_definition f v = .ok td) :
    td.name = snake_to_pascal_case (f.tool_name.getD f.name) := by
  unfold create_tool_definition at h
  repeat' split at h
  all_goals first
    | exact Except.noConfusion h
    | (simp only [Except.ok.injEq] at h
       subst h
       rfl)

/-- C5 counterexample: an explicit override "my_tool" is itself passed
through the snake→Pascal conversion, so the derived name is "MyTool", not
the override as provided. -/
theorem display_name_override_pascalized_cex :
    (create_tool_definition
      { name := "orig_fn", tool_name := some "my_tool",
        tool_description := some "D", params := [],
        return_anno := some (.plain .str), returns_value := true,
        requires_auth := none } "1.0").map ToolDefinition.name =
      .ok "MyTool" ∧ ("MyTool" : String) ≠ "my_tool" := by
  exact ⟨rfl, by decide⟩

/-- Witness for C5: the amended statement applied to the same callable. -/
theorem tool_name_pascal_witness :
    ("MyTool" : String) = snake_to_pascal_case "my_tool" := by
  have h := tool_name_pascal_of_override_or_declared
    (PyFunc.mk "orig_fn" (some "my_tool") (some "D") [] (some (.plain .str))
      true none) "1.0"
    (ToolDefinition.mk "MyTool" "D" "1.0" (ToolInputs.mk [])
      (ToolOutput.mk (some "No description provided.") ["value", "error"]
        (some (ValueSchema.mk WireType.string none)))
      (ToolRequirements.mk none)) rfl
  simpa using h

/-- C7: building a ToolDefinition fails with a missing-description error
when the callable carries no attached (or an empty) tool description, and
with a missing-return-annotation error when the body detectably produces a
value but there is no return type; both checks precede signature analysis,
so the result is exactly that error whatever the parameters are. -/
theorem fail_fast_description_and_return_checks (f : PyFunc) (v : String) :
    ((f.tool_description = none ∨ f.tool_description = some "") →
      create_tool_definition f v =
        .error (.missingDescription (f.tool_name.getD f.name))) ∧
    (∀ d, f.tool_description = some d → d ≠ "" → f.returns_value = true →
      f.return_anno = none →
      create_tool_definition f v =
        .error (.missingReturnAnno (f.tool_name.getD f.name))) := by
  constructor
  · rintro (h | h) <;> simp [create_tool_definition, h]
  · intro d hd hne hrv hra
    simp [create_tool_definition, hd, hne, does_function_return_value, hrv,
      returnAnnoIsNone, hra]

/-- Witness for C7: a description-less callable fails fast even though its
single parameter would itself fail extraction. -/
theorem fail_fast_witness :
    create_tool_definition
      (PyFunc.mk "t_one" none none [Parameter.mk "x" none .empty] none false
        none) "v" =
      .error (.missingDescription "t_one") :=
  (fail_fast_description_and_return_checks
    (PyFunc.mk "t_one" none none [Parameter.mk "x" none .empty] none false
      none) "v").1 (Or.inl rfl)

/-- C2: the derived ToolOutput has available modes exactly
["value", "error"] for a present non-optional return type, exactly
["value", "error", "null"] for an optional-wrapped one, and exactly
["null"] (with no value schema) when the callable has no return type. -/
theorem available_modes_by_return_shape (f : PyFunc) (out : ToolOutput)
    (h : create_output_definition f = .ok out) :
    (f.return_anno = none →
      out.available_modes = ["null"] ∧ out.value_schema = none) ∧
    (∀ ra, f.return_anno = some ra →
      ((unwrapOptional ra.underlying).2 = false →
        out.available_modes = ["value", "error"] ∧ out.value_schema ≠ none) ∧
      ((unwrapOptional ra.underlying).2 = true →
        out.available_modes = ["value", "error", "null"] ∧
        out.value_schema ≠ none)) := by
  unfold create_output_definition at h
  split at h
  · rename_i hra
    simp only [Except.ok.injEq] at h
    subst h
    refine ⟨fun _ => ⟨rfl, rfl⟩, fun ra hra2 => ?_⟩
    rw [hra] at hra2
    exact Option.noConfusion hra2
  · rename_i ra hra
    refine ⟨fun hn => by rw [hra] at hn; exact Option.noConfusion hn, ?_⟩
    intro ra2 hra2
    rw [hra, Option.some.injEq] at hra2
    subst hra2
    split at h
    · exact Except.noConfusion h
    · rename_i w hw
      simp only [Except.ok.injEq] at h
      subst h
      constructor
      · intro hopt
        simp [hopt]
      · intro hopt
        simp [hopt]

/-- The return annotation `Annotated[Optional[str], "Value found"]`. -/
def lookupReturn : Annot := .annotated (.union [.str, .noneType]) [.str "Value found"]

/-- A concrete callable with an optional-wrapped annotated return type. -/
def lookupFunc : PyFunc :=
  { name := "lookup", tool_name := none, tool_description := some "d",
    params := [], return_anno := some lookupReturn, returns_value := true,
    requires_auth := none }

/-- The output derived for `lookupFunc`. -/
def lookupOutput : ToolOutput :=
  { description := some "Value found"
    available_modes := ["value", "error", "null"]
    value_schema := some { val_type := .string } }

/-- Witness for C2: the optional-return case evaluated on `lookupFunc`. -/
theorem available_modes_witness :
    lookupOutput.available_modes = ["value", "error", "null"] ∧
    lookupOutput.value_schema ≠ none :=
  ((available_modes_by_return_shape lookupFunc lookupOutput rfl).2
    lookupReturn rfl).2 rfl


/-- C1 (amended): an InputParameter is required iff the resolved
default of the parameter is `None` (a declared default of `None` and an absent
default are indistinguishable after extraction, since the code tests
`default is not None`) and its type is not optional-wrapped; for a regular
(non-Field) default the resolved default is the declared default, with
absence mapped to `None`. -/
theorem required_iff_default_none_and_not_optional (p : Parameter)
    (a : Annot) (hpa : p.anno = some a) (tfi : ToolParamInfo)
    (h : extract_field_info p = .ok tfi) :
    ((make_input_parameter tfi).required = true ↔
      tfi.default = .vNone ∧ (unwrapOptional a.underlying).2 = false) ∧
    ((∀ fi, p.default ≠ .fieldInfo fi) →
      tfi.default = (match p.default with | .value v => v | _ => .vNone)) := by
  obtain ⟨info0, info, w, hinfo0, hinfo, hw, htfi, hdesc⟩ :=
    extract_field_info_ok p a hpa tfi h
  obtain ⟨hn0, ho0, hf0, hop0⟩ := param_info_of_ok p a info0 hinfo0
  obtain ⟨hd1, hf1, hop1, ho1⟩ := apply_str_annos_ok p _ info0 info hinfo
  subst htfi
  constructor
  · simp only [make_input_parameter, ToolParamInfo.from_param_info,
      Bool.and_eq_true, Bool.not_eq_true', Bool.not_not, beq_iff_eq]
    rw [hop1, hop0]
    exact and_comm
  · intro hreg
    simp only [ToolParamInfo.from_param_info]
    rw [hd1]
    exact (param_info_of_regular_default p a info0 hreg hinfo0).1

/-- C1 counterexample: a parameter with an explicit default of `None` and a
non-optional type does have a default value, yet the derived InputParameter
has `required = true`. -/
theorem none_default_still_required_cex :
    (Parameter.mk "x" (some (.annotated .str [.str "d"]))
      (.value .vNone)).default ≠ .empty ∧
    (extract_field_info
      (Parameter.mk "x" (some (.annotated .str [.str "d"]))
        (.value .vNone))).map
      (fun tfi => (make_input_parameter tfi).required) = .ok true :=
  ⟨by decide, rfl⟩

/-- Witness for C1: the amended statement applied to a required integer
parameter. -/
theorem required_iff_witness :
    (make_input_parameter (ToolParamInfo.mk "q" PyValue.vNone PyType.int
      PyType.int WireType.integer (some "d") false true)).required = true := by
  have h := required_iff_default_none_and_not_optional
    (Parameter.mk "q" (some (.annotated .int [.str "d"])) .empty)
    (.annotated .int [.str "d"]) rfl
    (ToolParamInfo.mk "q" PyValue.vNone PyType.int PyType.int
      WireType.integer (some "d") false true) rfl
  exact h.1.mpr ⟨rfl, rfl⟩

/-- C3: a parameter whose unwrapped type is a closed set of string literals
gets `val_type = string` and `enum` equal to the literal set in declaration
order; any other parameter gets no enum. -/
theorem literal_string_enum_schema (p : Parameter) (a : Annot)
    (hpa : p.anno = some a) (tfi : ToolParamInfo)
    (h : extract_field_info p = .ok tfi) :
    (∀ vs, (unwrapOptional a.underlying).1 = .literalStr vs →
      (make_input_parameter tfi).value_schema =
        { val_type := .string, enum := some vs }) ∧
    ((∀ vs, (unwrapOptional a.underlying).1 ≠ .literalStr vs) →
      (make_input_parameter tfi).value_schema.enum = none) := by
  obtain ⟨info0, info, w, hinfo0, hinfo, hw, htfi, hdesc⟩ :=
    extract_field_info_ok p a hpa tfi h
  obtain ⟨hn0, ho0, hf0, hop0⟩ := param_info_of_ok p a info0 hinfo0
  obtain ⟨hd1, hf1, hop1, ho1⟩ := apply_str_annos_ok p _ info0 info hinfo
  have hft : info.field_type = (unwrapOptional a.underlying).1 := by
    rw [hf1, hf0]
  constructor
  · intro vs hvs
    have hfi : info.field_type = PyType.literalStr vs := by rw [hft, hvs]
    have hwstr : w = .string := by
      unfold wire_of at hw
      rw [hfi] at hw
      simp [is_string_literal, get_wire_type, type_mapping] at hw
      exact hw.symm
    subst htfi
    subst hwstr
    simp [make_input_parameter, ToolParamInfo.from_param_info, hfi,
      is_string_literal, literalArgs]
  · intro hne
    have hlit : is_string_literal info.field_type = false := by
      rw [hft]
      cases hu : (unwrapOptional a.underlying).1 <;>
        first
          | rfl
          | exact absurd hu (hne _)
    subst htfi
    simp [make_input_parameter, ToolParamInfo.from_param_info, hlit]

/-- Witness for C3: the enum case applied to a parameter typed
`Literal["asc", "desc"]`. -/
theorem literal_string_enum_witness :
    (make_input_parameter (ToolParamInfo.mk "ord" PyValue.vNone
      (.literalStr ["asc", "desc"]) (.literalStr ["asc", "desc"])
      WireType.string (some "d") false true)).value_schema =
      { val_type := .string, enum := some ["asc", "desc"] } :=
  (literal_string_enum_schema
    (Parameter.mk "ord"
      (some (.annotated (.literalStr ["asc", "desc"]) [.str "d"])) .empty)
    (.annotated (.literalStr ["asc", "desc"]) [.str "d"]) rfl
    (ToolParamInfo.mk "ord" PyValue.vNone (.literalStr ["asc", "desc"])
      (.literalStr ["asc", "desc"]) WireType.string (some "d") false true)
    rfl).1 ["asc", "desc"] rfl


/-- The description carried by a field-specification default, if any. -/
def field_spec_description (p : Parameter) : Option String :=
  match p.default with
  | .fieldInfo fi => fi.description
  | _ => none

theorem param_info_of_description (p : Parameter) (a : Annot)
    (info0 : ParamInfo) (h : param_info_of p a = .ok info0) :
    info0.description = field_spec_description p := by
  unfold param_info_of extract_pydantic_param_info at h
  unfold field_spec_description
  repeat' split at h
  all_goals first
    | exact Except.noConfusion h
    | (simp only [Except.ok.injEq] at h
       subst h
       simp_all [extract_regular_param_info])

/-- C4 (amended): for a parameter with no attached string metadata whose
parameter-info stage succeeds (any regular default, or a field-specification
default whose factory, if present, is callable) and whose field-specification
default carries no description, extraction fails with a missing-description
error whenever the wire type resolves; an unmappable type fails with the
unsupported-type error instead, because wire-type resolution precedes the
description check; and a field-specification default with a non-callable
default factory fails with the invalid-default-factory error before any
description or wire-type logic runs. -/
theorem missing_description_after_wire_resolution (p : Parameter) (a : Annot)
    (hpa : p.anno = some a) (hsa : strAnnos a = []) :
    (∀ info0, param_info_of p a = .ok info0 →
      field_spec_description p = none →
      (∀ w, wire_of info0 = .ok w →
        extract_field_info p = .error (.missingDescription p.name)) ∧
      (∀ e, wire_of info0 = .error e →
        extract_field_info p = .error e)) ∧
    (∀ fi, p.default = .fieldInfo fi →
      fi.default_factory = some .notCallable →
      extract_field_info p = .error (.invalidDefaultFactory p.name)) := by
  constructor
  · intro info0 hinfo0 hfsd
    have hdesc : info0.description = none := by
      rw [param_info_of_description p a info0 hinfo0, hfsd]
    have hname : info0.name = p.name := (param_info_of_ok p a info0 hinfo0).1
    constructor
    · intro w hw
      simp [extract_field_info, hpa, hinfo0, hsa, apply_str_annos, hw,
        hdesc, hname]
    · intro e hw
      simp [extract_field_info, hpa, hinfo0, hsa, apply_str_annos, hw,
        hdesc, hname]
  · intro fi hfi hnc
    have hpi : param_info_of p a = .error (.invalidDefaultFactory p.name) := by
      simp [param_info_of, hfi, extract_pydantic_param_info, hnc]
    simp [extract_field_info, hpa, hpi]

/-- C4 counterexample: a parameter whose type is unmappable and whose
description is also missing fails with the unsupported-type error, not the
missing-description one. -/
theorem unsupported_type_wins_over_missing_description_cex :
    strAnnos (.annotated (.customClass "Widget" false) []) = [] ∧
    extract_field_info
      (Parameter.mk "x" (some (.annotated (.customClass "Widget" false) []))
        .empty) =
      .error (.unsupportedType (.customClass "Widget" false)) ∧
    ∀ n, (ToolDefinitionError.unsupportedType (.customClass "Widget" false)) ≠
      .missingDescription n :=
  ⟨rfl, rfl, fun _ h => ToolDefinitionError.noConfusion h⟩

/-- Witness for C4: a field-specification default with a callable factory
and no description fails with the missing-description error once its wire
type resolves, and one with a non-callable factory fails with the
invalid-default-factory error. -/
theorem missing_description_witness :
    extract_field_info
      (Parameter.mk "lim" (some (.plain PyType.int))
        (.fieldInfo (FieldInfo.mk none (some (.callable (.vInt 1))) none))) =
      .error (.missingDescription "lim") ∧
    extract_field_info
      (Parameter.mk "bad" (some (.plain PyType.int))
        (.fieldInfo (FieldInfo.mk none (some .notCallable) none))) =
      .error (.invalidDefaultFactory "bad") :=
  ⟨((missing_description_after_wire_resolution
      (Parameter.mk "lim" (some (.plain PyType.int))
        (.fieldInfo (FieldInfo.mk none (some (.callable (.vInt 1))) none)))
      (.plain PyType.int) rfl rfl).1 _ rfl rfl).1 .integer rfl,
   (missing_description_after_wire_resolution
      (Parameter.mk "bad" (some (.plain PyType.int))
        (.fieldInfo (FieldInfo.mk none (some .notCallable) none)))
      (.plain PyType.int) rfl rfl).2 _ rfl rfl⟩

theorem apply_str_annos_long (p : Parameter) (sa : List String)
    (info0 : ParamInfo) (hlen : 3 ≤ sa.length) :
    apply_str_annos p sa info0 =
      .error (.tooManyStrAnnos p.name sa.length) := by
  cases sa with
  | nil => exact absurd hlen (by decide)
  | cons x t1 =>
    cases t1 with
    | nil =>
      simp only [List.length_cons, List.length_nil] at hlen
      omega
    | cons y t2 =>
      cases t2 with
      | nil =>
        simp only [List.length_cons, List.length_nil] at hlen
        omega
      | cons z t3 => rfl

theorem inputParamsLoop_ok_mem (ps : List Parameter)
    (l : List InputParameter) (h : inputParamsLoop ps = .ok l) :
    ∀ p ∈ ps, ∃ tfi, extract_field_info p = .ok tfi := by
  induction ps generalizing l with
  | nil =>
    intro p hp
    cases hp
  | cons q qs ih =>
    intro p hp
    unfold inputParamsLoop at h
    split at h
    · exact Except.noConfusion h
    · rename_i tfi hq
      split at h
      · exact Except.noConfusion h
      · rename_i rest hrest
        cases hp with
        | head => exact ⟨tfi, hq⟩
        | tail _ hmem => exact ih rest hrest p hmem

theorem create_ok_inputs (f : PyFunc) (v : String) (td : ToolDefinition)
    (h : create_tool_definition f v = .ok td) :
    ∃ i, create_input_definition f = .ok i := by
  unfold create_tool_definition at h
  repeat' split at h
  all_goals first
    | exact Except.noConfusion h
    | exact ⟨_, by assumption⟩

/-- C6: the string metadata items attached to a parameter are handled
by count: zero items leave the name and any field-specification description
unchanged, one item becomes the description, two items set a display-name
override and the description, and three or more fail with the
too-many-annotations error, so that no ToolDefinition is produced for any
callable containing the parameter. -/
theorem str_metadata_count_dispatch (p : Parameter) (a : Annot)
    (hpa : p.anno = some a) :
    (∀ tfi, extract_field_info p = .ok tfi →
      (strAnnos a = [] → tfi.name = p.name ∧
        tfi.description = field_spec_description p) ∧
      (∀ d, strAnnos a = [d] →
        tfi.name = p.name ∧ tfi.description = some d) ∧
      (∀ n d, strAnnos a = [n, d] →
        tfi.name = n ∧ tfi.description = some d)) ∧
    (∀ info0, param_info_of p a = .ok info0 → 3 ≤ (strAnnos a).length →
      extract_field_info p =
        .error (.tooManyStrAnnos p.name (strAnnos a).length) ∧
      ∀ f v, p ∈ f.params → ∀ td, create_tool_definition f v ≠ .ok td) := by
  constructor
  · intro tfi h
    obtain ⟨info0, info, w, hinfo0, hinfo, hw, htfi, hdesc⟩ :=
      extract_field_info_ok p a hpa tfi h
    obtain ⟨hn0, ho0, hf0, hop0⟩ := param_info_of_ok p a info0 hinfo0
    refine ⟨?_, ?_, ?_⟩
    · intro hsa
      rw [hsa] at hinfo
      simp only [apply_str_annos, Except.ok.injEq] at hinfo
      subst hinfo
      subst htfi
      exact ⟨by simp [ToolParamInfo.from_param_info, hn0],
        by simp [ToolParamInfo.from_param_info,
          param_info_of_description p a info0 hinfo0]⟩
    · intro d hsa
      rw [hsa] at hinfo
      simp only [apply_str_annos, Except.ok.injEq] at hinfo
      subst hinfo
      subst htfi
      exact ⟨by simp [ToolParamInfo.from_param_info, hn0],
        by simp [ToolParamInfo.from_param_info]⟩
    · intro n d hsa
      rw [hsa] at hinfo
      simp only [apply_str_annos, Except.ok.injEq] at hinfo
      subst hinfo
      subst htfi
      exact ⟨by simp [ToolParamInfo.from_param_info],
        by simp [ToolParamInfo.from_param_info]⟩
  · intro info0 hinfo0 hlen
    have hasa := apply_str_annos_long p (strAnnos a) info0 hlen
    have hfail : extract_field_info p =
        .error (.tooManyStrAnnos p.name (strAnnos a).length) := by
      simp [extract_field_info, hpa, hinfo0, hasa]
    refine ⟨hfail, ?_⟩
    intro f v hmem td hok
    obtain ⟨inputs, hi⟩ := create_ok_inputs f v td hok
    obtain ⟨l, hl⟩ : ∃ l, inputParamsLoop f.params = .ok l := by
      unfold create_input_definition at hi
      cases hll : inputParamsLoop f.params with
      | error e =>
        rw [hll] at hi
        exact Except.noConfusion hi
      | ok l => exact ⟨l, rfl⟩
    obtain ⟨tfi, hextr⟩ := inputParamsLoop_ok_mem f.params l hl p hmem
    rw [hfail] at hextr
    exact Except.noConfusion hextr

/-- Witness for C6: the two-item case applied to a parameter annotated with
a display name and a description. -/
theorem str_metadata_count_witness :
    (ToolParamInfo.mk "N" PyValue.vNone PyType.str PyType.str
      WireType.string (some "D") false true).name = "N" ∧
    (ToolParamInfo.mk "N" PyValue.vNone PyType.str PyType.str
      WireType.string (some "D") false true).description = some "D" :=
  ((str_metadata_count_dispatch
    (Parameter.mk "x" (some (.annotated .str [.str "N", .str "D"])) .empty)
    (.annotated .str [.str "N", .str "D"]) rfl).1
    (ToolParamInfo.mk "N" PyValue.vNone PyType.str PyType.str
      WireType.string (some "D") false true) rfl).2.2 "N" "D" rfl


/-- A callable with a two-item string-metadata display-name override on its
single parameter. -/
def overrideFunc : PyFunc :=
  { name := "g", tool_name := none, tool_description := some "T",
    params := [Parameter.mk "x" (some (.annotated .str [.str "DX", .str "desc"]))
      .empty],
    return_anno := some (.plain .str), returns_value := true,
    requires_auth := none }

/-- A callable whose return type is `Annotated[str, ""]`: an attached
empty-string description. -/
def emptyDescFunc : PyFunc :=
  { name := "h", tool_name := none, tool_description := some "T",
    params := [], return_anno := some (.annotated .str [.str ""]),
    returns_value := true, requires_auth := none }

/-- C9 counterexample: with a two-item display-name override present, the
coercion input model keys its field by the declared parameter name "x"
while the wire-protocol InputParameter is named "DX"; and with an
empty-string description attached to the return type, the wire ToolOutput
description is "" while the coercion output model falls back to
"No description provided.": the two passes do not agree field-for-field. -/
theorem func_models_field_name_ignores_override_cex :
    (create_func_models_input overrideFunc).map (List.map ModelField.name) =
      .ok ["x"] ∧
    (create_input_definition overrideFunc).map
      (fun i => i.parameters.map InputParameter.name) = .ok ["DX"] ∧
    ("x" : String) ≠ "DX" ∧
    (create_output_definition emptyDescFunc).map ToolOutput.description =
      .ok (some "") ∧
    (determine_output_model emptyDescFunc).map OutputModelField.description =
      some "No description provided." ∧
    (some "" : Option String) ≠ some "No description provided." :=
  ⟨rfl, rfl, by decide, rfl, rfl, by decide⟩

/-- C9 (amended): both signature passes run the same extractor, so for each
parameter the coercion-model field carries the extracted resolved field
type, default and description — the description matching the
one on the InputParameter — but the model field is keyed by the declared parameter
name while InputParameter.name is the extracted (possibly overridden)
name; and the output result field carries the same description as
ToolOutput for a plain (metadata-free) return type and whenever the first
metadata item on the return type is a non-empty string, while an
empty-string metadata item makes the two passes diverge. -/
theorem func_models_mirror_wire_definition :
    (∀ p tfi, extract_field_info p = .ok tfi →
      model_field_of p = .ok
        { name := p.name, field_type := tfi.field_type,
          default := tfi.default, description := tfi.description } ∧
      (make_input_parameter tfi).description = tfi.description ∧
      (make_input_parameter tfi).name = tfi.name) ∧
    (∀ f t out omf,
      f.return_anno = some (.plain t) →
      create_output_definition f = .ok out →
      determine_output_model f = some omf →
      out.description = some "No description provided." ∧
      omf.description = "No description provided.") ∧
    (∀ f t ms s out omf,
      f.return_anno = some (.annotated t ms) →
      create_output_definition f = .ok out →
      determine_output_model f = some omf →
      ms.head? = some (.str s) → s ≠ "" →
      omf.description = s ∧ out.description = some s) := by
  refine ⟨?_, ?_, ?_⟩
  · intro p tfi h
    refine ⟨by simp [model_field_of, h], ?_, ?_⟩
    · simp [make_input_parameter]
    · simp [make_input_parameter]
  · intro f t out omf hra hout homf
    constructor
    · unfold create_output_definition at hout
      split at hout
      · rename_i hnone
        rw [hra] at hnone
        exact Option.noConfusion hnone
      · rename_i ra hsome
        rw [hra, Option.some.injEq] at hsome
        subst hsome
        split at hout
        · exact Except.noConfusion hout
        · simp only [Except.ok.injEq] at hout
          subst hout
          simp [return_description]
    · simp [determine_output_model, hra] at homf
      simp [← homf]
  · intro f t ms s out omf hra hout homf hhead hs
    cases ms with
    | nil => exact absurd hhead (by simp)
    | cons m tail =>
      simp only [List.head?_cons, Option.some.injEq] at hhead
      subst hhead
      constructor
      · simp [determine_output_model, hra, Annot.hasOrigin, metaDescription,
          hs] at homf
        simp [← homf]
      · unfold create_output_definition at hout
        split at hout
        · rename_i hnone
          rw [hra] at hnone
          exact Option.noConfusion hnone
        · rename_i ra hsome
          rw [hra, Option.some.injEq] at hsome
          subst hsome
          split at hout
          · exact Except.noConfusion hout
          · simp only [Except.ok.injEq] at hout
            subst hout
            simp [return_description, metaDescription]

/-- Witness for C9: the per-parameter half applied to a concrete parameter,
and the output half applied to `lookupFunc`-style data. -/
theorem func_models_mirror_witness :
    model_field_of
      (Parameter.mk "q" (some (.annotated .int [.str "d"])) .empty) =
      .ok { name := "q", field_type := .int, default := .vNone,
            description := some "d" } :=
  (func_models_mirror_wire_definition.1
    (Parameter.mk "q" (some (.annotated .int [.str "d"])) .empty)
    (ToolParamInfo.mk "q" PyValue.vNone PyType.int PyType.int
      WireType.integer (some "d") false true) rfl).1

end Arcade
